import Mathlib

/-
Verification of the LavaLauncher input-dispatch core.

Shallow embedding of the C sources (item.h, item.c, seat.c, util.c) of the
lavalauncher panel: the per-item command table, the saturating counter used
for all indicator updates, the touch tracker, the keyboard-modifier tracker
and the pointer state machine.  Intrusive wl_list collections are modelled
as Lean lists whose head is the most recently inserted element, matching
wl_list_insert-at-head followed by wl_list_for_each iteration order.
-/

namespace Lava

/-! ## Enumerations (item.h) -/

/-- enum Interaction_type from item.h. -/
inductive Interaction_type
  | mouse_button
  | mouse_scroll
  | touch
  | universal
deriving DecidableEq, Repr, Inhabited

/-- enum Meta_action from item.h. -/
inductive Meta_action
  | none
  | toplevel_activate
  | toplevel_close
  | reload
  | exit
deriving DecidableEq, Repr, Inhabited

/-- struct Lava_item_command (item.h): one binding of an item's command table.
The wl_list link is implicit in the containing Lean list. -/
structure Lava_item_command where
  type : Interaction_type
  action : Meta_action
  command : Option String
  modifiers : Nat
  special : Nat
deriving DecidableEq, Repr, Inhabited

/-- A normalized interaction record: the argument triple that the seat code
passes to item_interaction (interaction type, keyboard modifier mask,
sub-code).  Handlers return the list of interactions they dispatch. -/
structure Interaction where
  type : Interaction_type
  modifiers : Nat
  special : Nat
deriving DecidableEq, Repr, Inhabited

/-! ## util.c -/

/-- counter_safe_subtract from util.c: if subtract > counter the counter is
set to 0, otherwise it is decremented by subtract.  The C counter is a
uint32_t; since the guarded branch never underflows, plain Nat subtraction
is exact here. -/
def counter_safe_subtract (counter subtract : Nat) : Nat :=
  if subtract > counter then 0 else counter - subtract

/-- string_starts_with from util.c.  Note that it compares only the first
min(strlen str, strlen pre) bytes, so it also returns true when str is a
proper leading part of pre. -/
def string_starts_with (str pre : String) : Bool :=
  let min_len := min str.length pre.length
  str.toList.take min_len == pre.toList.take min_len

/-! ## Command table (item.c) -/

/-- find_item_command from item.c: walks the command list (head first, i.e.
most recently inserted first) and returns the first entry that either
matches (type, modifiers, special) exactly, or — when allow_universal is
set — has type INTERACTION_UNIVERSAL while the query type is not
INTERACTION_MOUSE_SCROLL. -/
def find_item_command (commands : List Lava_item_command)
    (type : Interaction_type) (modifiers special : Nat)
    (allow_universal : Bool) : Option Lava_item_command :=
  commands.find? fun cmd =>
    (cmd.type == type && cmd.modifiers == modifiers && cmd.special == special)
      || (allow_universal && cmd.type == Interaction_type.universal
            && !(type == Interaction_type.mouse_scroll))

/-- The meta-action table inside item_add_command (item.c), in array order. -/
def meta_action_table : List (String × Meta_action) :=
  [ ("@toplevel-activate", Meta_action.toplevel_activate),
    ("@toplevel-close",    Meta_action.toplevel_close),
    ("@reload",            Meta_action.reload),
    ("@exit",              Meta_action.exit) ]

/-- The action/command classification performed at the end of
item_add_command (item.c): if the action string starts with the byte @ the
meta-action table is scanned in order with string_starts_with; on a hit,
when the string length equals the table name's length no literal command is
stored, otherwise the remainder past the name's length is stored.  (In the
C code that remainder is the pointer command + strlen(name); when the
string is shorter than the matched name this pointer lies beyond the end of
the string — modelled here as the empty remainder of String.drop.)  With no
hit, or when the string does not start with @, the entry becomes a plain
run-command with META_ACTION_NONE. -/
def classify_action_string (command : String) : Meta_action × Option String :=
  if command.toList.head? = some '@' then
    match meta_action_table.find? (fun a => string_starts_with command a.1) with
    | some a =>
        if command.length = a.1.length then (a.2, Option.none)
        else (a.2, some (command.drop a.1.length))
    | Option.none => (Meta_action.none, some command)
  else (Meta_action.none, some command)

/-- Overwriting the found entry in place: item_add_command sets the matched
(or freshly inserted) entry's action and command fields from the action
string. -/
def set_command_action (c : Lava_item_command) (command : String) :
    Lava_item_command :=
  let a := classify_action_string command
  { c with action := a.1, command := a.2 }

/-- In-place overwrite of the first entry satisfying p, as done by
item_add_command when find_item_command (exact matching only) found one. -/
def replace_first_command (p : Lava_item_command → Bool) (command : String) :
    List Lava_item_command → List Lava_item_command
  | [] => []
  | c :: rest =>
      if p c then set_command_action c command :: rest
      else c :: replace_first_command p command rest

/-- item_add_command from item.c: looks for an exact (type, modifiers,
special) match (allow_universal = false); overwrites it in place if found,
otherwise inserts a fresh entry at the head of the list
(wl_list_insert(&item->commands, &cmd->link)); either way the entry's
action and command are then set by classifying the action string. -/
def item_add_command (commands : List Lava_item_command) (command : String)
    (type : Interaction_type) (modifiers special : Nat) :
    List Lava_item_command :=
  let p := fun (c : Lava_item_command) =>
    c.type == type && c.modifiers == modifiers && c.special == special
  match find_item_command commands type modifiers special false with
  | some _ => replace_first_command p command commands
  | Option.none =>
      set_command_action
        { type := type, modifiers := modifiers, special := special,
          action := Meta_action.none, command := Option.none } command
        :: commands

/-! ## Item instances (item.h / item.c) -/

/-- struct Lava_item_instance (item.h), restricted to the indicator state
the input handlers mutate.  indicator is the hover count,
active_indicator the press/touch count. -/
structure Lava_item_instance where
  indicator : Nat
  active_indicator : Nat
  toplevel_exists_indicator : Nat
  toplevel_activated_indicator : Nat
  dirty : Bool
deriving DecidableEq, Repr, Inhabited

/-- Mutating one item instance inside the bar's collection of instances,
addressed by its position. -/
def update_inst (insts : List Lava_item_instance) (idx : Nat)
    (f : Lava_item_instance → Lava_item_instance) : List Lava_item_instance :=
  insts.set idx (f (insts.getD idx default))

/-- The indicator effect of destroy_touchpoint (seat.c) on the origin item
instance: saturating decrement of active_indicator and dirty marking. -/
def destroy_effect (insts : List Lava_item_instance) (idx : Nat) :
    List Lava_item_instance :=
  update_inst insts idx fun i =>
    { i with active_indicator := counter_safe_subtract i.active_indicator 1,
             dirty := true }

/-! ## Touch tracker (seat.c)

bar_instance_get_item_instance_from_coords lives in bar.c, outside the
given sources; the handlers are therefore parametrized by a hit-test
function from coordinates to the index of the item instance under them
(none when no item is under the point). -/

/-- struct Lava_touchpoint (seat.h usage in seat.c): the touch identifier
and the item instance the touch started on (by index). -/
structure Lava_touchpoint where
  id : Int
  item_idx : Nat
deriving DecidableEq, Repr, Inhabited

/-- The seat's touch tracking state: the wl_list seat->touch.touchpoints
of tracked touchpoints together with the bar's item instances and whether
a frame was scheduled. -/
structure TouchState where
  touchpoints : List Lava_touchpoint
  insts : List Lava_item_instance
  frame_scheduled : Bool
deriving DecidableEq, Repr, Inhabited

/-- create_touchpoint (seat.c): unconditionally allocates a new touchpoint
and sets its id and item-instance fields, increments the target item
instance's active_indicator, marks it dirty and schedules a frame.  The
function contains no wl_list_insert — unlike create_seat and create_item,
which follow the same TRY_NEW allocation with an explicit insert — so the
new touchpoint is never linked into seat->touch.touchpoints; the tracked
list is unchanged and the allocated object (returned here as the second
component) stays unreachable from the seat.  (Allocation failure is not
modelled; the function then returns false and touch_handle_down merely
logs.) -/
def create_touchpoint (s : TouchState) (id : Int) (idx : Nat) :
    TouchState × Lava_touchpoint :=
  ({ touchpoints := s.touchpoints,
     insts := update_inst s.insts idx fun i =>
       { i with active_indicator := i.active_indicator + 1, dirty := true },
     frame_scheduled := true },
   { id := id, item_idx := idx })

/-- touchpoint_from_id (seat.c): first list entry carrying the id. -/
def touchpoint_from_id (s : TouchState) (id : Int) : Option Lava_touchpoint :=
  s.touchpoints.find? fun tp => tp.id == id

/-- touch_handle_down (seat.c): resolves the item instance under the touch
coordinates; if none, the event is dropped, otherwise create_touchpoint
runs.  There is no check whether a touchpoint with this id already exists,
and — since create_touchpoint never inserts into the list — the tracked
touchpoint list does not grow. -/
def touch_handle_down (hit : Int → Int → Option Nat) (s : TouchState)
    (id x y : Int) : TouchState :=
  match hit x y with
  | Option.none => s
  | some idx => (create_touchpoint s id idx).1

/-- The list walk of touch_handle_motion: find the first touchpoint with
the id; if the hit test at the new coordinates yields no item or a
different item than the touchpoint's origin, that touchpoint is removed
(wl_list_remove in destroy_touchpoint) and the origin index is reported
for the indicator decrement; otherwise the list is unchanged. -/
def touch_motion_scan (hit : Int → Int → Option Nat) (id x y : Int) :
    List Lava_touchpoint → List Lava_touchpoint × Option Nat
  | [] => ([], Option.none)
  | tp :: rest =>
      if tp.id == id then
        match hit x y with
        | Option.none => (rest, some tp.item_idx)
        | some j =>
            if j ≠ tp.item_idx then (rest, some tp.item_idx)
            else (tp :: rest, Option.none)
      else
        let r := touch_motion_scan hit id x y rest
        (tp :: r.1, r.2)

/-- touch_handle_motion (seat.c): ignored when no touchpoint carries the
id; when the item instance under the new coordinates is absent or differs
from the touchpoint's origin, the touchpoint is destroyed (saturating
indicator decrement, dirty, frame scheduled).  No interaction is ever
dispatched from motion. -/
def touch_handle_motion (hit : Int → Int → Option Nat) (s : TouchState)
    (id x y : Int) : TouchState × List Interaction :=
  let r := touch_motion_scan hit id x y s.touchpoints
  match r.2 with
  | Option.none => ({ s with touchpoints := r.1 }, [])
  | some idx =>
      ({ touchpoints := r.1, insts := destroy_effect s.insts idx,
         frame_scheduled := true }, [])

/-- The list walk of touch_handle_up: remove the first touchpoint with the
id, reporting its origin index. -/
def touch_up_scan (id : Int) :
    List Lava_touchpoint → List Lava_touchpoint × Option Nat
  | [] => ([], Option.none)
  | tp :: rest =>
      if tp.id == id then (rest, some tp.item_idx)
      else
        let r := touch_up_scan id rest
        (tp :: r.1, r.2)

/-- touch_handle_up (seat.c): if a touchpoint carries the id, dispatch an
INTERACTION_TOUCH interaction with the current modifier mask and sub-code
0 to its origin item, then destroy the touchpoint. -/
def touch_handle_up (s : TouchState) (id : Int) (modifiers : Nat) :
    TouchState × List Interaction :=
  let r := touch_up_scan id s.touchpoints
  match r.2 with
  | Option.none => (s, [])
  | some idx =>
      ({ touchpoints := r.1, insts := destroy_effect s.insts idx,
         frame_scheduled := true },
       [{ type := Interaction_type.touch, modifiers := modifiers, special := 0 }])

/-- destroy_all_touchpoints (seat.c): destroys every live touchpoint, each
destruction applying the indicator decrement to its origin instance. -/
def destroy_all_touchpoints (s : TouchState) : TouchState :=
  { touchpoints := [],
    insts := s.touchpoints.foldl (fun insts tp => destroy_effect insts tp.item_idx) s.insts,
    frame_scheduled := if s.touchpoints.isEmpty then s.frame_scheduled else true }

/-- seat_release_touch (seat.c): destroys all touchpoints and releases the
wl_touch handle (the handle itself is not modelled). -/
def seat_release_touch (s : TouchState) : TouchState :=
  destroy_all_touchpoints s

/-! ## Keyboard modifier tracker (seat.c) -/

/-- The keyboard sub-state of struct Lava_seat: presence of the
wl_keyboard, xkb context, keymap and state objects (true = non-NULL) and
the modifier mask. -/
structure KeyboardState where
  wl_keyboard : Bool
  context : Bool
  keymap : Bool
  state : Bool
  modifiers : Nat
deriving DecidableEq, Repr, Inhabited

/-- seat_release_keyboard (seat.c): releases and NULLs the wl_keyboard,
context, keymap and state, and resets the modifier mask to 0. -/
def seat_release_keyboard (_k : KeyboardState) : KeyboardState :=
  { wl_keyboard := false, context := false, keymap := false, state := false,
    modifiers := 0 }

/-- keyboard_handle_keymap (seat.c).  The event outcome is abstracted into
three booleans: whether mmap of the keymap fd succeeded, whether
xkb_keymap_new_from_string succeeded, and whether xkb_state_new succeeded.
If mmap fails, nothing changes.  Otherwise the old keymap and state are
unreferenced and NULLed first; on keymap-construction failure only an
error is logged (keymap and state stay NULL); on state-construction
failure only an error is logged (the new keymap stays set, the state stays
NULL).  Nothing else of the keyboard tracker is touched. -/
def keyboard_handle_keymap (k : KeyboardState)
    (mmap_ok keymap_ok state_ok : Bool) : KeyboardState :=
  if mmap_ok then
    let k1 := { k with keymap := false, state := false }
    if keymap_ok = false then k1
    else if state_ok = false then { k1 with keymap := true }
    else { k1 with keymap := true, state := true }
  else k

/-! ## Pointer state machine (seat.c) -/

/-- CONTINUOUS_SCROLL_THRESHHOLD from seat.c. -/
def CONTINUOUS_SCROLL_THRESHHOLD : Int := 10000

/-- wl_fixed_to_int from wayland-util.h: the wl_fixed_t value divided by
256, truncating toward zero as C integer division does (Lean's Int
division is also truncation toward zero). -/
def wl_fixed_to_int (f : Int) : Int := f / 256

/-- The C cast (uint32_t) applied to a signed value: reduction modulo
2^32. -/
def uint32_of_int (i : Int) : Nat := (i % (2 ^ 32 : Int)).toNat

/-- Modelled from the spec: struct Lava_seat and its pointer sub-structure
are declared in seat.h, which is not among the given sources.  The field
set follows the spec's PointerState description — position, hovered item
instance or none, press depth click as a signed-safe count (hence Int
here; seat.c casts it with (uint32_t) before indicator arithmetic),
accumulated continuous-scroll value (a wl_fixed_t), accumulated discrete
step count, last scroll-event timestamp, and whether the pointer is over a
bar instance (seat->pointer.instance ≠ NULL).  The hovered item instance
is held by value; seat.c holds a pointer into the bar. -/
structure PointerState where
  x : Nat
  y : Nat
  instance_present : Bool
  item_instance : Option Lava_item_instance
  discrete_steps : Nat
  last_update_time : Nat
  value : Int
  click : Int
deriving DecidableEq, Repr, Inhabited

/-- pointer_handle_button (seat.c).  On an unexpected surface (no bar
instance under the pointer) the event is dropped.  On press the click
count is incremented and, if an item instance is hovered, its
active_indicator is incremented and it is marked dirty.  On release the
click count is decremented — plainly, with no saturation — and, if an item
instance is hovered, its active_indicator is decremented saturating, it is
marked dirty and a mouse-button interaction with the modifier mask and the
raw button code is dispatched.  A frame is scheduled unless the handler
returned early (third component). -/
def pointer_handle_button (s : PointerState) (modifiers button : Nat)
    (pressed : Bool) : PointerState × List Interaction × Bool :=
  if s.instance_present = false then (s, [], false)
  else if pressed then
    let s1 := { s with click := s.click + 1 }
    match s1.item_instance with
    | Option.none => (s1, [], false)
    | some inst =>
        let inst1 := { inst with active_indicator := inst.active_indicator + 1,
                                 dirty := true }
        ({ s1 with item_instance := some inst1 }, [], true)
  else
    let s1 := { s with click := s.click - 1 }
    match s1.item_instance with
    | Option.none => (s1, [], false)
    | some inst =>
        let inst1 := { inst with
          active_indicator := counter_safe_subtract inst.active_indicator 1,
          dirty := true }
        ({ s1 with item_instance := some inst1 },
         [{ type := Interaction_type.mouse_button, modifiers := modifiers,
            special := button }], true)

/-- The while loop at the end of pointer_handle_frame (seat.c): while the
magnitude of the accumulated value exceeds the threshold, dispatch one
interaction (counted here) and add value_change.  The C loop has no fuel;
it is embedded with an explicit fuel which the caller picks as |value| + 1.
Since value_change is -threshold when the integer part of value is
positive and +threshold otherwise (and |value| ≤ 255 < threshold whenever
the integer part is 0), every reachable run shrinks |value| by the
threshold each iteration and needs far fewer than |value| + 1 steps; the
fuel-exhaustion branch is never taken on such inputs. -/
def scroll_loop : Nat → Int → Int → Nat × Int
  | 0, value, _ => (0, value)
  | fuel + 1, value, value_change =>
      if CONTINUOUS_SCROLL_THRESHHOLD < (value.natAbs : Int) then
        let r := scroll_loop fuel (value + value_change) value_change
        (r.1 + 1, r.2)
      else (0, value)

/-- pointer_handle_frame (seat.c): returns unchanged unless a bar instance
and an item instance are present.  Direction is 0 (down) when
wl_fixed_to_int of the accumulated value is positive and 1 (up) otherwise,
and value_change is the threshold signed for down or up.  If discrete steps were
accumulated, that many INTERACTION_MOUSE_SCROLL interactions are
dispatched and both accumulators are reset; otherwise the continuous
accumulator is drained by the scroll loop, its final value remaining in
the state. -/
def pointer_handle_frame (s : PointerState) (modifiers : Nat) :
    PointerState × List Interaction :=
  if s.instance_present = false then (s, [])
  else match s.item_instance with
  | Option.none => (s, [])
  | some _ =>
      let pos := 0 < wl_fixed_to_int s.value
      let direction : Nat := if pos then 0 else 1
      let value_change : Int :=
        if pos then -CONTINUOUS_SCROLL_THRESHHOLD else CONTINUOUS_SCROLL_THRESHHOLD
      if s.discrete_steps ≠ 0 then
        ({ s with discrete_steps := 0, value := 0 },
         List.replicate s.discrete_steps
           { type := Interaction_type.mouse_scroll, modifiers := modifiers,
             special := direction })
      else
        let r := scroll_loop (s.value.natAbs + 1) s.value value_change
        ({ s with value := r.2 },
         List.replicate r.1
           { type := Interaction_type.mouse_scroll, modifiers := modifiers,
             special := direction })

/-- The observable outcome of seat_release_pointer: the pointer state
afterwards, the final state of the item instance that was hovered (it
lives on in the bar after the seat dropped its reference), and whether a
frame was scheduled. -/
structure PointerReleaseResult where
  pointer : PointerState
  released_instance : Option Lava_item_instance
  frame_scheduled : Bool
deriving DecidableEq, Repr, Inhabited

/-- seat_release_pointer (seat.c): if an item instance is hovered, its
indicator is decremented by 1 and its active_indicator by the click count
cast to uint32_t (both saturating), it is marked dirty, a frame is
scheduled, and the seat's item-instance reference and click count are
reset to NULL/0.  The cursor and wl_pointer teardown is not modelled. -/
def seat_release_pointer (s : PointerState) : PointerReleaseResult :=
  match s.item_instance with
  | some inst =>
      let inst1 := { inst with
        indicator := counter_safe_subtract inst.indicator 1,
        active_indicator :=
          counter_safe_subtract inst.active_indicator (uint32_of_int s.click),
        dirty := true }
      { pointer := { s with item_instance := Option.none, click := 0 },
        released_instance := some inst1,
        frame_scheduled := true }
  | Option.none =>
      { pointer := s, released_instance := Option.none, frame_scheduled := false }

/-- The seat state destroyed by destroy_seat. -/
structure Lava_seat where
  keyboard : KeyboardState
  touch : TouchState
  pointer : PointerState
deriving DecidableEq, Repr, Inhabited

/-- destroy_seat (seat.c): releases the keyboard, the touch tracker and the
pointer of the seat (then releases the wl_seat and frees the struct, which
leaves no observable state).  The three release results are returned. -/
def destroy_seat (seat : Lava_seat) :
    KeyboardState × TouchState × PointerReleaseResult :=
  (seat_release_keyboard seat.keyboard,
   seat_release_touch seat.touch,
   seat_release_pointer seat.pointer)

/-! ## Concrete states used by the closed theorems -/

/-- A bar with a single fresh item instance and no live touchpoints. -/
def touch_demo_state : TouchState :=
  { touchpoints := [],
    insts := [{ indicator := 0, active_indicator := 0,
                toplevel_exists_indicator := 0,
                toplevel_activated_indicator := 0, dirty := false }],
    frame_scheduled := false }

/-- A hit test under which every coordinate lies on item instance 0. -/
def touch_demo_hit : Int → Int → Option Nat := fun _ _ => some 0

/-- A fresh item instance. -/
def demo_inst : Lava_item_instance :=
  { indicator := 0, active_indicator := 0, toplevel_exists_indicator := 0,
    toplevel_activated_indicator := 0, dirty := false }

/-- A pointer on a bar instance with no hovered item and press depth 0. -/
def ptr_demo : PointerState :=
  { x := 0, y := 0, instance_present := true, item_instance := Option.none,
    discrete_steps := 0, last_update_time := 0, value := 0, click := 0 }

/-- A pointer over an item with 3 accumulated discrete steps and a positive
continuous accumulator. -/
def scroll_demo : PointerState :=
  { x := 0, y := 0, instance_present := true, item_instance := some demo_inst,
    discrete_steps := 3, last_update_time := 0, value := 25600, click := 0 }

/-- A fully constructed keyboard tracker with CONTROL held. -/
def kbd_demo : KeyboardState :=
  { wl_keyboard := true, context := true, keymap := true, state := true,
    modifiers := 4 }

/-- A touch tracker with one live touchpoint (id 7) that started on item
instance 0, whose active_indicator it holds at 1. -/
def touch_drift_state : TouchState :=
  { touchpoints := [{ id := 7, item_idx := 0 }],
    insts := [{ indicator := 0, active_indicator := 1,
                toplevel_exists_indicator := 0,
                toplevel_activated_indicator := 0, dirty := false }],
    frame_scheduled := false }

/-- A hit test under which no coordinate lies on any item. -/
def touch_drift_hit : Int → Int → Option Nat := fun _ _ => Option.none

/-- A pointer hovering an item instance with press depth 2 (two buttons
held). -/
def release_demo_inst : Lava_item_instance :=
  { indicator := 1, active_indicator := 2, toplevel_exists_indicator := 0,
    toplevel_activated_indicator := 0, dirty := false }

/-- A pointer state mid-interaction: hovering release_demo_inst with two
buttons down. -/
def release_demo : PointerState :=
  { x := 5, y := 5, instance_present := true,
    item_instance := some release_demo_inst, discrete_steps := 0,
    last_update_time := 0, value := 0, click := 2 }

/-! ## Helper lemmas -/

lemma counter_safe_subtract_le (c n : Nat) : counter_safe_subtract c n ≤ c := by
  unfold counter_safe_subtract
  split <;> omega

lemma foldl_counter_safe_subtract_le (ns : List Nat) :
    ∀ c : Nat, List.foldl counter_safe_subtract c ns ≤ c := by
  induction ns with
  | nil => intro c; exact Nat.le_refl c
  | cons n ns ih =>
      intro c
      calc List.foldl counter_safe_subtract (counter_safe_subtract c n) ns
          ≤ counter_safe_subtract c n := ih _
        _ ≤ c := counter_safe_subtract_le c n

lemma touch_motion_scan_found (hit : Int → Int → Option Nat) (id x y : Int) :
    ∀ (l : List Lava_touchpoint) (tp : Lava_touchpoint),
      l.find? (fun t => t.id == id) = some tp →
      (hit x y = Option.none ∨ ∀ j, hit x y = some j → j ≠ tp.item_idx) →
      touch_motion_scan hit id x y l
        = (l.eraseP (fun t => t.id == id), some tp.item_idx) := by
  intro l
  induction l with
  | nil => intro tp h; simp [List.find?] at h
  | cons t rest ih =>
      intro tp hfind hdrift
      cases ht : (t.id == id) with
      | true =>
          simp only [List.find?, ht] at hfind
          have htp : t = tp := Option.some.inj hfind
          subst htp
          cases hhit : hit x y with
          | none =>
              simp [touch_motion_scan, ht, hhit, List.eraseP_cons, ht]
          | some j =>
              have hj : j ≠ t.item_idx := by
                rcases hdrift with hnone | hsome
                · rw [hnone] at hhit; exact absurd hhit (by simp)
                · exact hsome j hhit
              simp [touch_motion_scan, ht, hhit, hj, List.eraseP_cons]
      | false =>
          simp only [List.find?, ht] at hfind
          have hrest := ih tp hfind hdrift
          simp [touch_motion_scan, ht, hrest, List.eraseP_cons]

/-! ## Claim theorems -/

/-- C8 (confirmed): counter_safe_subtract yields 0 when n > c and exactly
c - n otherwise (stated additively, which also shows the subtraction is
exact and cannot wrap), the result never exceeds the starting counter, and
any sequence of subtract calls keeps the counter bounded by its initial
value — it can never wrap below zero. -/
theorem counter_safe_subtract_never_underflows (c n : Nat) :
    (n > c → counter_safe_subtract c n = 0) ∧
    (n ≤ c → counter_safe_subtract c n + n = c) ∧
    counter_safe_subtract c n ≤ c ∧
    (∀ ns : List Nat, List.foldl counter_safe_subtract c ns ≤ c) := by
  refine ⟨?_, ?_, counter_safe_subtract_le c n,
    fun ns => foldl_counter_safe_subtract_le ns c⟩
  · intro h; unfold counter_safe_subtract; simp [h]
  · intro h; unfold counter_safe_subtract; split <;> omega

/-- Witness for C8 at concrete inputs: subtracting 5 from 3 clamps to 0
and subtracting 4 from 9 is exact. -/
theorem counter_safe_subtract_never_underflows_witness :
    counter_safe_subtract 3 5 = 0 ∧ counter_safe_subtract 9 4 + 4 = 9 :=
  ⟨(counter_safe_subtract_never_underflows 3 5).1 (by decide),
   ((counter_safe_subtract_never_underflows 9 4).2).1 (by decide)⟩

/-- C1 counterexample: add the exact binding [mouse-left]cmd1 first and
the universal cmd2 second.  item_add_command inserts at the head of the
wl_list, so the universal entry is iterated first and find_item_command
returns it for a left-click (type mouse_button, modifiers 0, special
BTN_LEFT = 272) even though an exact entry is in the table — the exact
match does not win for this insertion order, refuting C1. -/
theorem exact_match_loses_to_newer_universal :
    find_item_command
        (item_add_command
          (item_add_command [] "cmd1" Interaction_type.mouse_button 0 272)
          "cmd2" Interaction_type.universal 0 0)
        Interaction_type.mouse_button 0 272 true
      = some { type := Interaction_type.universal, action := Meta_action.none,
               command := some "cmd2", modifiers := 0, special := 0 }
    ∧ { type := Interaction_type.mouse_button, action := Meta_action.none,
        command := some "cmd1", modifiers := 0, special := 272 }
      ∈ item_add_command
          (item_add_command [] "cmd1" Interaction_type.mouse_button 0 272)
          "cmd2" Interaction_type.universal 0 0 := by decide

/-- C1 amended (proved): find_item_command returns the first matching
entry in list order, i.e. the most recently added matching binding wins;
the exact entry beats the universal one exactly when it was added after
it.  With the universal binding cmd2 added first and the exact binding
cmd1 added second, an interaction matching the exact triple resolves to
cmd1 and any same-type interaction with a different sub-code falls back to
the universal cmd2. -/
theorem resolve_exact_wins_when_added_later
    (t : Interaction_type) (mods sp sp2 : Nat)
    (hscroll : t ≠ Interaction_type.mouse_scroll)
    (huniv : t ≠ Interaction_type.universal)
    (hsp : sp2 ≠ sp) :
    find_item_command
        (item_add_command
          (item_add_command [] "cmd2" Interaction_type.universal 0 0)
          "cmd1" t mods sp) t mods sp true
      = some { type := t, action := Meta_action.none, command := some "cmd1",
               modifiers := mods, special := sp }
    ∧ find_item_command
        (item_add_command
          (item_add_command [] "cmd2" Interaction_type.universal 0 0)
          "cmd1" t mods sp) t mods sp2 true
      = some { type := Interaction_type.universal, action := Meta_action.none,
               command := some "cmd2", modifiers := 0, special := 0 } := by
  have hc1 : classify_action_string "cmd1" = (Meta_action.none, some "cmd1") := by
    decide
  have hc2 : classify_action_string "cmd2" = (Meta_action.none, some "cmd2") := by
    decide
  have hu1 : (Interaction_type.universal == t) = false := by
    cases t <;> simp_all
  have ht1 : (t == Interaction_type.universal) = false := by
    cases t <;> simp_all
  have ht2 : (t == Interaction_type.mouse_scroll) = false := by
    cases t <;> simp_all
  have hsp' : (sp == sp2) = false := by
    simp [Nat.beq_eq_true_eq]
    exact fun h => hsp h.symm
  have h0 : item_add_command [] "cmd2" Interaction_type.universal 0 0
      = [{ type := Interaction_type.universal, action := Meta_action.none,
           command := some "cmd2", modifiers := 0, special := 0 }] := by
    simp [item_add_command, find_item_command, List.find?, set_command_action, hc2]
  have h1 : item_add_command
        (item_add_command [] "cmd2" Interaction_type.universal 0 0)
        "cmd1" t mods sp
      = [{ type := t, action := Meta_action.none, command := some "cmd1",
           modifiers := mods, special := sp },
         { type := Interaction_type.universal, action := Meta_action.none,
           command := some "cmd2", modifiers := 0, special := 0 }] := by
    rw [h0]
    simp [item_add_command, find_item_command, List.find?, hu1,
      set_command_action, hc1]
  rw [h1]
  constructor
  · simp [find_item_command, List.find?]
  · simp [find_item_command, List.find?, ht1, ht2, hsp', hu1, hscroll]

/-- Witness for C1's amended theorem at a left-click (BTN_LEFT = 272)
versus a right-click (BTN_RIGHT = 273) with no modifiers. -/
theorem resolve_exact_wins_when_added_later_witness :
    find_item_command
        (item_add_command
          (item_add_command [] "cmd2" Interaction_type.universal 0 0)
          "cmd1" Interaction_type.mouse_button 0 272)
        Interaction_type.mouse_button 0 272 true
      = some { type := Interaction_type.mouse_button, action := Meta_action.none,
               command := some "cmd1", modifiers := 0, special := 272 }
    ∧ find_item_command
        (item_add_command
          (item_add_command [] "cmd2" Interaction_type.universal 0 0)
          "cmd1" Interaction_type.mouse_button 0 272)
        Interaction_type.mouse_button 0 273 true
      = some { type := Interaction_type.universal, action := Meta_action.none,
               command := some "cmd2", modifiers := 0, special := 0 } :=
  resolve_exact_wins_when_added_later Interaction_type.mouse_button 0 272 273
    (by decide) (by decide) (by decide)

/-- C2 counterexample: starting from an empty touch tracker over one item
instance, two touch-down events carrying the same id 7 increment the item
instance's press-count indicator twice (it ends at 2) — touch_handle_down
performs no duplicate-id check, so the second down is not ignored,
refuting C2's parenthetical.  The tracked touchpoint list, meanwhile,
stays empty: create_touchpoint builds the touchpoint object (id 7, item 0)
but never inserts it into seat->touch.touchpoints. -/
theorem touch_down_duplicate_id_double_increments :
    (touch_handle_down touch_demo_hit
        (touch_handle_down touch_demo_hit touch_demo_state 7 1 1)
        7 2 2).insts
      = [{ indicator := 0, active_indicator := 2,
           toplevel_exists_indicator := 0,
           toplevel_activated_indicator := 0, dirty := true }]
    ∧ (touch_handle_down touch_demo_hit
        (touch_handle_down touch_demo_hit touch_demo_state 7 1 1)
        7 2 2).touchpoints = []
    ∧ (create_touchpoint touch_demo_state 7 0).2
      = { id := 7, item_idx := 0 } := by decide

/-- C2 amended (proved): a touch-down whose coordinates resolve to an item
instance unconditionally increments that instance's press-count indicator
and marks it dirty, with no check for an earlier down carrying the same
id — a down repeating a still-active id increments the indicator a second
time.  Moreover create_touchpoint lacks the wl_list_insert its sibling
constructors perform, so the down leaves the tracked touchpoint list
unchanged (the allocated touchpoint never becomes reachable), and "at most
one tracked touchpoint per id" holds only because the list never grows at
all. -/
theorem touch_down_always_increments (hit : Int → Int → Option Nat)
    (s : TouchState) (id x y : Int) (idx : Nat) (h : hit x y = some idx) :
    (touch_handle_down hit s id x y).insts
      = update_inst s.insts idx (fun i =>
          { i with active_indicator := i.active_indicator + 1,
                   dirty := true })
    ∧ (touch_handle_down hit s id x y).touchpoints = s.touchpoints
    ∧ (touch_handle_down hit s id x y).frame_scheduled = true
    ∧ (create_touchpoint s id idx).2 = { id := id, item_idx := idx } := by
  simp [touch_handle_down, h, create_touchpoint]

/-- Witness for C2's amended theorem: one touch-down with id 7 on the
fresh demo tracker. -/
theorem touch_down_always_increments_witness :
    (touch_handle_down touch_demo_hit touch_demo_state 7 1 1).insts
      = update_inst touch_demo_state.insts 0 (fun i =>
          { i with active_indicator := i.active_indicator + 1,
                   dirty := true })
    ∧ (touch_handle_down touch_demo_hit touch_demo_state 7 1 1).touchpoints
      = touch_demo_state.touchpoints
    ∧ (touch_handle_down touch_demo_hit touch_demo_state 7 1 1).frame_scheduled
      = true
    ∧ (create_touchpoint touch_demo_state 7 0).2 = { id := 7, item_idx := 0 } :=
  touch_down_always_increments touch_demo_hit touch_demo_state 7 1 1 0 rfl

/-- C3 counterexample: a release event arriving while the press depth is
already 0 (pointer over a bar instance, no item hovered) drives the click
count to -1 — pointer_handle_button decrements it with no saturation, so
the press depth does not stay ≥ 0, refuting C3. -/
theorem button_release_at_depth_zero_goes_negative :
    ((pointer_handle_button ptr_demo 0 272 false).1).click = -1
    ∧ ¬ (0 ≤ ((pointer_handle_button ptr_demo 0 272 false).1).click) := by decide

/-- C3 amended (proved): every release event over a bar instance
decrements the press depth by exactly one, with no saturation; the field
is a signed count (per the spec's PointerState), so a spurious release at
depth 0 yields -1 rather than an unsigned wrap, and only the hovered
item's press indicator is decremented saturating. -/
theorem button_release_decrements_without_saturation
    (s : PointerState) (mods button : Nat) (h : s.instance_present = true) :
    ((pointer_handle_button s mods button false).1).click = s.click - 1
    ∧ ∀ inst, s.item_instance = some inst →
        ((pointer_handle_button s mods button false).1).item_instance
          = some { inst with
              active_indicator := counter_safe_subtract inst.active_indicator 1,
              dirty := true } := by
  cases hi : s.item_instance with
  | none => simp [pointer_handle_button, h, hi]
  | some inst => simp [pointer_handle_button, h, hi]

/-- Witness for C3's amended theorem: the release on the demo pointer
state with depth 0. -/
theorem button_release_decrements_without_saturation_witness :
    ((pointer_handle_button ptr_demo 0 272 false).1).click = ptr_demo.click - 1
    ∧ ∀ inst, ptr_demo.item_instance = some inst →
        ((pointer_handle_button ptr_demo 0 272 false).1).item_instance
          = some { inst with
              active_indicator := counter_safe_subtract inst.active_indicator 1,
              dirty := true } :=
  button_release_decrements_without_saturation ptr_demo 0 272 rfl

/-- C4 (code bug, evaluated): on a keymap-replacement event where
construction of the new xkb state fails (mmap ok, keymap ok, state fails),
keyboard_handle_keymap leaves the wl_keyboard bound, the xkb context and
the freshly built keymap set and the modifier mask untouched — it is not
the released state that seat_release_keyboard would produce; likewise when
the new keymap itself fails to build. -/
theorem keymap_failure_leaves_keyboard_partially_alive :
    keyboard_handle_keymap kbd_demo true true false
      = { wl_keyboard := true, context := true, keymap := true,
          state := false, modifiers := 4 }
    ∧ keyboard_handle_keymap kbd_demo true false true
      = { wl_keyboard := true, context := true, keymap := false,
          state := false, modifiers := 4 }
    ∧ keyboard_handle_keymap kbd_demo true true false
        ≠ seat_release_keyboard kbd_demo
    ∧ keyboard_handle_keymap kbd_demo true false true
        ≠ seat_release_keyboard kbd_demo := by decide

/-- C5 counterexample: a frame with 3 accumulated discrete steps, an item
hovered and a positive continuous accumulator (25600, integer part 100)
dispatches its 3 scroll interactions with sub-code 0 (down), not sub-code
1 (up) as C5 states; both accumulators do reset. -/
theorem discrete_scroll_with_positive_value_dispatches_down :
    0 < scroll_demo.value
    ∧ (pointer_handle_frame scroll_demo 0).2
      = List.replicate 3 { type := Interaction_type.mouse_scroll,
                           modifiers := 0, special := 0 }
    ∧ (pointer_handle_frame scroll_demo 0).2
      ≠ List.replicate 3 { type := Interaction_type.mouse_scroll,
                           modifiers := 0, special := 1 }
    ∧ (pointer_handle_frame scroll_demo 0).1.discrete_steps = 0
    ∧ (pointer_handle_frame scroll_demo 0).1.value = 0 := by decide

/-- C5 amended (proved): with n > 0 accumulated discrete steps and an item
instance hovered, a frame dispatches exactly n scroll interactions whose
direction sub-code is 0 (down) when the integer part of the continuous
accumulator is positive and 1 (up) otherwise, and resets both the discrete
counter and the continuous accumulator to 0. -/
theorem frame_discrete_steps_dispatch (s : PointerState) (mods : Nat)
    (inst : Lava_item_instance) (hbar : s.instance_present = true)
    (hitem : s.item_instance = some inst) (hsteps : s.discrete_steps ≠ 0) :
    (pointer_handle_frame s mods).2
      = List.replicate s.discrete_steps
          { type := Interaction_type.mouse_scroll, modifiers := mods,
            special := if 0 < wl_fixed_to_int s.value then 0 else 1 }
    ∧ (pointer_handle_frame s mods).1.discrete_steps = 0
    ∧ (pointer_handle_frame s mods).1.value = 0 := by
  simp [pointer_handle_frame, hbar, hitem, hsteps]

/-- Witness for C5's amended theorem on the demo state (3 steps, value
25600). -/
theorem frame_discrete_steps_dispatch_witness :
    (pointer_handle_frame scroll_demo 0).2
      = List.replicate scroll_demo.discrete_steps
          { type := Interaction_type.mouse_scroll, modifiers := 0,
            special := if 0 < wl_fixed_to_int scroll_demo.value then 0 else 1 }
    ∧ (pointer_handle_frame scroll_demo 0).1.discrete_steps = 0
    ∧ (pointer_handle_frame scroll_demo 0).1.value = 0 :=
  frame_discrete_steps_dispatch scroll_demo 0 demo_inst rfl rfl (by decide)

/-- C6 (confirmed): a frame with no accumulated discrete steps, an item
instance hovered and a continuous accumulator of 25000 — whose magnitude
exceeds the threshold CONTINUOUS_SCROLL_THRESHHOLD = 10000 — dispatches
exactly 2 scroll interactions (one per full threshold of excess) and
leaves the remainder 5000 in the accumulator. -/
theorem frame_continuous_25000_dispatches_two (s : PointerState) (mods : Nat)
    (inst : Lava_item_instance) (hbar : s.instance_present = true)
    (hitem : s.item_instance = some inst) (hsteps : s.discrete_steps = 0)
    (hval : s.value = 25000) :
    (pointer_handle_frame s mods).2
      = List.replicate 2 { type := Interaction_type.mouse_scroll,
                           modifiers := mods, special := 0 }
    ∧ (pointer_handle_frame s mods).1.value = 5000
    ∧ (pointer_handle_frame s mods).1.discrete_steps = 0 := by
  have hloop : scroll_loop 25001 25000
      (-CONTINUOUS_SCROLL_THRESHHOLD) = (2, 5000) := by decide
  have hpos : (0 : Int) < wl_fixed_to_int 25000 := by decide
  simp [pointer_handle_frame, hbar, hitem, hsteps, hval, hpos, hloop]

/-- Witness for C6 on a concrete pointer state with accumulator 25000. -/
theorem frame_continuous_25000_dispatches_two_witness :
    (pointer_handle_frame
        { x := 0, y := 0, instance_present := true,
          item_instance := some demo_inst, discrete_steps := 0,
          last_update_time := 0, value := 25000, click := 0 } 0).2
      = List.replicate 2 { type := Interaction_type.mouse_scroll,
                           modifiers := 0, special := 0 }
    ∧ (pointer_handle_frame
        { x := 0, y := 0, instance_present := true,
          item_instance := some demo_inst, discrete_steps := 0,
          last_update_time := 0, value := 25000, click := 0 } 0).1.value = 5000
    ∧ (pointer_handle_frame
        { x := 0, y := 0, instance_present := true,
          item_instance := some demo_inst, discrete_steps := 0,
          last_update_time := 0, value := 25000, click := 0 } 0).1.discrete_steps
      = 0 :=
  frame_continuous_25000_dispatches_two _ 0 demo_inst rfl rfl rfl rfl

/-- C7 (code bug, evaluated): string_starts_with compares only the first
min(len str, len name) bytes, so the action string "@exi" — which does not
begin with any recognized meta-action name — still matches "@exit".
item_add_command then classifies it as META_ACTION_EXIT and stores the
remainder command + strlen("@exit"), a pointer one past the end of the
5-byte buffer holding "@exi" (modelled as the empty remainder), instead of
storing "@exi" as a plain run-command with meta-action none. -/
theorem meta_action_matches_short_string :
    string_starts_with "@exi" "@exit" = true
    ∧ "@exit".isPrefixOf "@exi" = false
    ∧ classify_action_string "@exi" = (Meta_action.exit, some "")
    ∧ item_add_command [] "@exi" Interaction_type.touch 0 0
      = [{ type := Interaction_type.touch, action := Meta_action.exit,
           command := some "", modifiers := 0, special := 0 }] := by decide

/-- C9 (confirmed): a touch-motion event for a live touchpoint whose
coordinates resolve to no item, or to an item instance different from the
one the touch started on, destroys that touchpoint: it is removed from the
list, the origin instance's press-count indicator is decremented via the
saturating counter and the instance is marked dirty, a frame is scheduled,
and no interaction is dispatched (hence no command can run). -/
theorem touch_motion_to_other_item_destroys_without_dispatch
    (hit : Int → Int → Option Nat) (s : TouchState) (id x y : Int)
    (tp : Lava_touchpoint) (hfind : touchpoint_from_id s id = some tp)
    (hdrift : hit x y = Option.none ∨ ∀ j, hit x y = some j → j ≠ tp.item_idx) :
    (touch_handle_motion hit s id x y).1.touchpoints
      = s.touchpoints.eraseP (fun t => t.id == id)
    ∧ (touch_handle_motion hit s id x y).1.insts
      = update_inst s.insts tp.item_idx (fun i =>
          { i with active_indicator := counter_safe_subtract i.active_indicator 1,
                   dirty := true })
    ∧ (touch_handle_motion hit s id x y).1.frame_scheduled = true
    ∧ (touch_handle_motion hit s id x y).2 = [] := by
  unfold touchpoint_from_id at hfind
  have hscan := touch_motion_scan_found hit id x y s.touchpoints tp hfind hdrift
  simp [touch_handle_motion, hscan, destroy_effect]

/-- Witness for C9: motion of the live touchpoint id 7 to coordinates over
no item destroys it without dispatching anything. -/
theorem touch_motion_to_other_item_destroys_without_dispatch_witness :
    (touch_handle_motion touch_drift_hit touch_drift_state 7 3 3).1.touchpoints
      = touch_drift_state.touchpoints.eraseP (fun t => t.id == 7)
    ∧ (touch_handle_motion touch_drift_hit touch_drift_state 7 3 3).1.insts
      = update_inst touch_drift_state.insts 0 (fun i =>
          { i with active_indicator := counter_safe_subtract i.active_indicator 1,
                   dirty := true })
    ∧ (touch_handle_motion touch_drift_hit touch_drift_state 7 3 3).1.frame_scheduled
      = true
    ∧ (touch_handle_motion touch_drift_hit touch_drift_state 7 3 3).2 = [] :=
  touch_motion_to_other_item_destroys_without_dispatch touch_drift_hit
    touch_drift_state 7 3 3 { id := 7, item_idx := 0 } rfl (Or.inl rfl)

/-- C10 (confirmed): releasing the pointer capability while an item
instance is hovered decrements that instance's hover indicator by 1 and
its press indicator by the press depth (both via the saturating counter),
marks it dirty, schedules a frame, and resets the seat's hovered-item
reference and click count to none/0; destroy_seat performs exactly this
pointer release.  The press depth is assumed non-negative and within
uint32_t range, so the C cast (uint32_t)click is the identity. -/
theorem seat_release_pointer_unwinds (s : PointerState)
    (inst : Lava_item_instance) (hi : s.item_instance = some inst)
    (h0 : 0 ≤ s.click) (hlt : s.click < 2 ^ 32) :
    (seat_release_pointer s).released_instance
      = some { inst with
          indicator := counter_safe_subtract inst.indicator 1,
          active_indicator :=
            counter_safe_subtract inst.active_indicator s.click.toNat,
          dirty := true }
    ∧ (seat_release_pointer s).pointer.item_instance = Option.none
    ∧ (seat_release_pointer s).pointer.click = 0
    ∧ (seat_release_pointer s).frame_scheduled = true
    ∧ ∀ seat : Lava_seat, seat.pointer = s →
        (destroy_seat seat).2.2 = seat_release_pointer s := by
  have hcast : uint32_of_int s.click = s.click.toNat := by
    unfold uint32_of_int
    rw [Int.emod_eq_of_lt h0 hlt]
  refine ⟨?_, ?_, ?_, ?_, ?_⟩
  · simp [seat_release_pointer, hi, hcast]
  · simp [seat_release_pointer, hi]
  · simp [seat_release_pointer, hi]
  · simp [seat_release_pointer, hi]
  · intro seat hseat
    simp [destroy_seat, hseat]

/-- Witness for C10: releasing the demo pointer (hovering an instance with
hover count 1 and press count 2, press depth 2) zeroes both indicators,
marks the instance dirty and resets the seat's reference and depth. -/
theorem seat_release_pointer_unwinds_witness :
    (seat_release_pointer release_demo).released_instance
      = some { release_demo_inst with
          indicator := counter_safe_subtract release_demo_inst.indicator 1,
          active_indicator :=
            counter_safe_subtract release_demo_inst.active_indicator
              release_demo.click.toNat,
          dirty := true }
    ∧ (seat_release_pointer release_demo).pointer.item_instance = Option.none
    ∧ (seat_release_pointer release_demo).pointer.click = 0
    ∧ (seat_release_pointer release_demo).frame_scheduled = true
    ∧ ∀ seat : Lava_seat, seat.pointer = release_demo →
        (destroy_seat seat).2.2 = seat_release_pointer release_demo :=
  seat_release_pointer_unwinds release_demo release_demo_inst rfl
    (by decide) (by decide)

end Lava
